import Mathlib

/-!
A shallow embedding of the astrality module action-orchestration engine:
the `Module` and `ModuleManager` classes of `astrality/module.py`, together
with the configuration-loading behaviour of `config.py` that the hot-reload
path depends on.  Python dictionaries holding event blocks are modelled as
records with all four action lists present (which is exactly the state
`populate_event_blocks` establishes); machine-level string operations are
modelled over code-point lists, matching Python string semantics.
-/

namespace Astrality

/-! ### String primitives, modelling Python `str` operations over code points -/

/-- Model of Python's `pat in s` substring test, over code-point lists. -/
def listContainsSub (pat : List Char) : List Char → Bool
  | [] => pat.isEmpty
  | c :: rest => pat.isPrefixOf (c :: rest) || listContainsSub pat rest

/-- Python `pat in s` on strings. -/
def strContains (s pat : String) : Bool := listContainsSub pat.data s.data

/-- Helper for `pyReplace`: scans left to right; a positive counter means we
are still inside the tail of a match that has already been replaced. -/
def listReplaceAux (pat rep : List Char) : List Char → Nat → List Char
  | [], _ => []
  | c :: rest, 0 =>
    if !pat.isEmpty && pat.isPrefixOf (c :: rest) then
      rep ++ listReplaceAux pat rep rest (pat.length - 1)
    else
      c :: listReplaceAux pat rep rest 0
  | _ :: rest, k + 1 => listReplaceAux pat rep rest k

/-- Model of Python `s.replace(pat, rep)`: every non-overlapping occurrence,
scanned left to right.  The modelled calls never use an empty pattern. -/
def pyReplace (s pat rep : String) : String :=
  String.mk (listReplaceAux pat.data rep.data s.data 0)

/-- Model of Python `s.split(sep)` (single-character separator). -/
def splitOnChar (sep : Char) : List Char → List (List Char)
  | [] => [[]]
  | c :: rest =>
    if c = sep then [] :: splitOnChar sep rest
    else
      match splitOnChar sep rest with
      | [] => [[c]]
      | h :: t => (c :: h) :: t

/-- Python `s.split(sep)` on strings. -/
def pySplit (s : String) (sep : Char) : List String :=
  (splitOnChar sep s.data).map String.mk

/-- Model of Python slicing `s[n:]` (by code points). -/
def pyDrop (s : String) (n : Nat) : String := String.mk (s.data.drop n)

/-! ### Data model (`astrality/module.py` named tuples and config dictionaries) -/

/-- One entry of a user-declared `import_context` list. -/
structure ContextImportSpec where
  from_path : String
  from_section : Option String
  to_section : Option String
deriving DecidableEq, Repr

/-- One entry of a user-declared `compile` list. -/
structure CompileSpec where
  template : String
  target : Option String
deriving DecidableEq, Repr

/-- An event block after `populate_event_blocks`: all four action lists are
present (possibly empty). -/
structure EventBlock where
  import_context : List ContextImportSpec
  compile : List CompileSpec
  run : List String
  trigger : List String
deriving DecidableEq, Repr

def EventBlock.empty : EventBlock :=
  { import_context := [], compile := [], run := [], trigger := [] }

/-- `self.module_config` after normalization: the three top-level blocks plus
the `on_modified` mapping (modelled as an association list in declaration
order, matching Python 3.7+ dict insertion order). -/
structure ModuleConfigRec where
  on_startup : EventBlock
  on_event : EventBlock
  on_exit : EventBlock
  on_modified : List (String × EventBlock)
deriving DecidableEq, Repr

/-- The `ContextSectionImport` named tuple. -/
structure ContextSectionImport where
  into_section : Option String
  from_section : Option String
  from_config_file : String
deriving DecidableEq, Repr

/-- A user configuration value that is either a single item or a list of
items; `populate_event_blocks` coerces the former into a singleton list. -/
inductive OneOrMany (α : Type)
  | one : α → OneOrMany α
  | many : List α → OneOrMany α
deriving DecidableEq, Repr

def OneOrMany.toList {α : Type} : OneOrMany α → List α
  | .one a => [a]
  | .many l => l

/-- A raw (user-declared) event block: every action category is optional and
may be given as a single item. -/
structure RawEventBlock where
  import_context : Option (OneOrMany ContextImportSpec) := none
  compile : Option (OneOrMany CompileSpec) := none
  run : Option (OneOrMany String) := none
  trigger : Option (OneOrMany String) := none
deriving DecidableEq, Repr

/-- A raw module section body, before normalization. -/
structure RawModuleConfig where
  on_startup : Option RawEventBlock := none
  on_event : Option RawEventBlock := none
  on_exit : Option RawEventBlock := none
  on_modified : Option (List (String × RawEventBlock)) := none
deriving DecidableEq, Repr

/-- The dict-update plus single-item coercion applied to one event block by
`populate_event_blocks`. -/
def normalize_block (r : Option RawEventBlock) : EventBlock :=
  match r with
  | none => EventBlock.empty
  | some b =>
    { import_context := (b.import_context.map OneOrMany.toList).getD []
      compile := (b.compile.map OneOrMany.toList).getD []
      run := (b.run.map OneOrMany.toList).getD []
      trigger := (b.trigger.map OneOrMany.toList).getD [] }

/-- `Module.populate_event_blocks`: fill in absent action categories with
empty lists and coerce single actions to singleton lists, for the three
top-level blocks and every `on_modified` entry. -/
def populate_event_blocks (raw : RawModuleConfig) : ModuleConfigRec :=
  { on_startup := normalize_block raw.on_startup
    on_event := normalize_block raw.on_event
    on_exit := normalize_block raw.on_exit
    on_modified := (raw.on_modified.getD []).map
      (fun kv => (kv.1, normalize_block (some kv.2))) }

/-! ### Trigger resolution (`Module.import_trigger_actions`) -/

/-- The three top-level event blocks, in the order the source iterates
over them. -/
inductive TopBlock
  | startup
  | event
  | exit
deriving DecidableEq, Repr

def getTop (mc : ModuleConfigRec) : TopBlock → EventBlock
  | .startup => mc.on_startup
  | .event => mc.on_event
  | .exit => mc.on_exit

def setTop (mc : ModuleConfigRec) (tb : TopBlock) (b : EventBlock) : ModuleConfigRec :=
  match tb with
  | .startup => { mc with on_startup := b }
  | .event => { mc with on_event := b }
  | .exit => { mc with on_exit := b }

/-- `Module._import_event_block`, reference-resolution part: the source first
tests `'on_modified.' in from_event_block` (substring containment), slicing
off the first 12 characters on a hit and looking the rest up in the
`on_modified` dict (a missing entry yields `{}`, whose `['run']` access then
raises, modelled as `none`); otherwise it indexes `self.module_config`
directly, which raises `KeyError` for anything but an existing block name. -/
def lookup_event_block (mc : ModuleConfigRec) (ref : String) : Option EventBlock :=
  if strContains ref "on_modified." then
    List.lookup (pyDrop ref 12) mc.on_modified
  else if ref = "on_startup" then some mc.on_startup
  else if ref = "on_event" then some mc.on_event
  else if ref = "on_exit" then some mc.on_exit
  else none

/-- `Module._import_event_block`, merge part: extend the destination block's
`run`, `import_context` and `compile` lists (the `trigger` list is not
extended). -/
def import_event_block (fromBlk intoBlk : EventBlock) : EventBlock :=
  { intoBlk with
      run := intoBlk.run ++ fromBlk.run
      import_context := intoBlk.import_context ++ fromBlk.import_context
      compile := intoBlk.compile ++ fromBlk.compile }

/-- Expand one top-level block's trigger references in order, against the
current (mutated-in-place) configuration, as the source loop does.  `none`
models a `KeyError` escaping from `_import_event_block`. -/
def expand_refs (tb : TopBlock) : ModuleConfigRec → List String → Option ModuleConfigRec
  | mc, [] => some mc
  | mc, r :: rs =>
    match lookup_event_block mc r with
    | none => none
    | some blk => expand_refs tb (setTop mc tb (import_event_block blk (getTop mc tb))) rs

def expand_top_block (mc : ModuleConfigRec) (tb : TopBlock) : Option ModuleConfigRec :=
  expand_refs tb mc (getTop mc tb).trigger

/-- One element of the tuple `import_trigger_actions` iterates over.  The
source builds `(on_startup, on_event, on_exit, on_modified.values())` --
note the missing `*`: the fourth element is the values view itself, not its
elements. -/
inductive IterElem
  | top : TopBlock → IterElem
  | valuesView
deriving DecidableEq, Repr

/-- The `'trigger' in event_block` test.  For the three block dicts this is
key membership, always true after normalization; for the `dict_values` view
it is membership among the values, which are dicts and never equal the
string `'trigger'`, so it is always false. -/
def elem_has_trigger_key : IterElem → Bool
  | .top _ => true
  | .valuesView => false

def trigger_step (mc : ModuleConfigRec) (e : IterElem) : Option ModuleConfigRec :=
  if elem_has_trigger_key e then
    match e with
    | .top tb => expand_top_block mc tb
    | .valuesView => some mc
  else some mc

/-- `Module.import_trigger_actions`: iterate the four-element tuple in
source order.  Because the `on_modified` values view fails the membership
test, only the three top-level blocks are ever expanded. -/
def import_trigger_actions (mc : ModuleConfigRec) : Option ModuleConfigRec := do
  let mc1 ← trigger_step mc (.top .startup)
  let mc2 ← trigger_step mc1 (.top .event)
  let mc3 ← trigger_step mc2 (.top .exit)
  trigger_step mc3 .valuesView

/-! ### Module accessors -/

/-- A constructed `Module`: its derived name and normalized, trigger-expanded
configuration.  The event listener is external; accessors take the listener's
current event value as a parameter. -/
structure ModuleRec where
  name : String
  config : ModuleConfigRec
deriving DecidableEq, Repr

/-- The `(event)` placeholder, `"&#x7b;event&#x7d;"` in the source. -/
def eventPlaceholder : String := "\x7bevent\x7d"

/-- `Module.interpolate_string`: replace every `(event)` placeholder with the
module's current event listener value. -/
def interpolate_string (ev : String) (s : String) : String :=
  pyReplace s eventPlaceholder ev

/-- `Module.startup_commands`. -/
def startup_commands (m : ModuleRec) (ev : String) : List String :=
  if m.config.on_startup.run.length = 0 then []
  else m.config.on_startup.run.map (interpolate_string ev)

/-- `Module.on_event_commands`. -/
def on_event_commands (m : ModuleRec) (ev : String) : List String :=
  if m.config.on_event.run.length = 0 then []
  else m.config.on_event.run.map (interpolate_string ev)

/-- `Module.exit_commands`. -/
def exit_commands (m : ModuleRec) (ev : String) : List String :=
  if m.config.on_exit.run.length = 0 then []
  else m.config.on_exit.run.map (interpolate_string ev)

/-- Python exceptions that the modelled code can raise. -/
inductive PyExn
  | assertionError
  | keyError (key : String)
  | runtimeError (msg : String)
deriving DecidableEq, Repr

/-- `Module.modified_commands`: indexes
`self.module_config['on_modified'][template_name]` directly, so a path with
no `on_modified` entry raises `KeyError`. -/
def modified_commands (m : ModuleRec) (ev : String) (template_name : String) :
    Except PyExn (List String) :=
  match List.lookup template_name m.config.on_modified with
  | none => .error (.keyError template_name)
  | some blk =>
    if blk.run.length = 0 then .ok []
    else .ok (blk.run.map (interpolate_string ev))

/-- Dict access `self.module_config[trigger]` for a top-level block name. -/
def top_block? (mc : ModuleConfigRec) (trigger : String) : Option EventBlock :=
  if trigger = "on_startup" then some mc.on_startup
  else if trigger = "on_event" then some mc.on_event
  else if trigger = "on_exit" then some mc.on_exit
  else none

/-- `Module.context_section_imports`.  The source guards with
`assert trigger in ('on_startup', 'on_event', 'on_startup',)` -- the third
tuple element repeats `'on_startup'` where the docstring promises
`'on_exit'` -- and then reads
`self.module_config.get(trigger, ()).get('import_context', ())`.
When a `from_section` is declared and `to_section` is not, the source
interpolates the already-interpolated `from_section` a second time. -/
def context_section_imports (m : ModuleRec) (ev : String) (trigger : String) :
    Except PyExn (List ContextSectionImport) :=
  if trigger = "on_startup" ∨ trigger = "on_event" ∨ trigger = "on_startup" then
    .ok (((top_block? m.config trigger).elim [] (·.import_context)).map
      (fun ci =>
        let from_path := interpolate_string ev ci.from_path
        match ci.from_section with
        | some fs =>
          let fs' := interpolate_string ev fs
          { into_section := some (interpolate_string ev (ci.to_section.getD fs'))
            from_section := some fs'
            from_config_file := from_path }
        | none =>
          { into_section := none
            from_section := none
            from_config_file := from_path }))
  else .error .assertionError

/-! ### `Module.valid_class_section` -/

/-- The options of one module section that `valid_class_section` inspects. -/
structure SectionOptions where
  enabled : Option Bool := none
  requires : Option (OneOrMany String) := none
deriving DecidableEq, Repr

/-- Python truthiness of the `requires` value: `None`, an empty string and an
empty list are all falsy, and `if not requires: return True`. -/
def requires_falsy : Option (OneOrMany String) → Bool
  | none => true
  | some (.one s) => s = ""
  | some (.many l) => l.isEmpty

/-- `Module.valid_class_section`.  The section mapping is modelled as an
association list so the exactly-one-key contract is visible; the shell is an
external oracle reporting whether a `requires` predicate succeeds. -/
def valid_class_section (sect : List (String × SectionOptions))
    (run_shell_ok : String → Bool) : Except PyExn Bool :=
  match sect with
  | [(module_name, opts)] =>
    let valid_module_name : Bool :=
      decide ((splitOnChar '/' module_name.data).head? = some "module".data)
    let enabled := opts.enabled.getD true
    if !(valid_module_name && enabled) then .ok false
    else if requires_falsy opts.requires then .ok true
    else if ((opts.requires.map OneOrMany.toList).getD []).all run_shell_ok then .ok true
    else .ok false
  | _ =>
    .error (.runtimeError
      "Tried to check module section with dict which does not have exactly one item.")

/-! ### Module construction -/

/-- `section.split('/')[1]`: `none` models the `IndexError` when the section
name has no slash. -/
def module_name_of (s : String) : Option String :=
  ((splitOnChar '/' s.data).get? 1).map String.mk

/-- `Module.__init__` on a single section: derive the name, normalize the
event blocks, then import trigger actions. -/
def build_module (s : String) (raw : RawModuleConfig) : Option ModuleRec :=
  (module_name_of s).bind fun name =>
    (import_trigger_actions (populate_event_blocks raw)).map fun cfg =>
      { name := name, config := cfg }

/-- Modelled from the spec: the static event listener kind
(`astrality/event_listener.py` is not under `src/`).  Per the external
collaborator contract, `EventListener.event()` returns a string; for
`event_listener: (type: static, value: v)` that string is the configured
value `v`. -/
structure StaticListener where
  value : String
deriving DecidableEq, Repr

def StaticListener.event (l : StaticListener) : String := l.value

/-! ### ModuleManager: state, registries, effects -/

/-- The `Template` named tuple (paths modelled as strings). -/
structure TemplateRec where
  source : String
  target : String
deriving DecidableEq, Repr

/-- The `WatchedFile` named tuple. -/
structure WatchedFileRec where
  path : String
  module : ModuleRec
  specified_path : String
deriving DecidableEq, Repr

/-- The shared application context: an abstract nested mapping, modelled as
an association list of subtrees (claims only inspect whether it changes). -/
abbrev AppContext := List (String × String)

/-- The mutable state of a `ModuleManager` instance. -/
structure ManagerState where
  config_file : String
  hot_reload : Bool
  startup_done : Bool
  last_module_events : List (String × String)
  modules : List ModuleRec
  templates : List (String × TemplateRec)
  on_modified_paths : List (String × WatchedFileRec)
  context : AppContext
deriving DecidableEq, Repr

/-- Observable actions the manager performs on its collaborators.  Info- and
debug-level log lines are not modelled; logged errors are. -/
inductive Effect
  | insertedContext (csi : ContextSectionImport)
  | compiled (source target : String)
  | compileErrorLogged (source target : String)
  | ranCommand (module_name command : String)
  | reloadErrorLogged
  | startedWatcher
  | stoppedWatcher
deriving DecidableEq, Repr

/-- The external world: per-module current event values, the filesystem seen
by the compiler and path expansion, the resolver behind `insert_into`
(`config.py`, whose result depends on the referenced file's on-disk
contents), and the outcome of re-reading the root configuration during hot
reload (`user_configuration` and `ModuleManager.__init__` on the new
configuration). -/
structure Env where
  events : String → String
  compile_ok : String → Bool
  expand : String → String
  insert_into : ContextSectionImport → AppContext → AppContext
  reload_parse : Except PyExn Unit
  reload_construct : Except PyExn ManagerState

/-- `ModuleManager.module_events`. -/
def module_events (env : Env) (st : ManagerState) : List (String × String) :=
  st.modules.map (fun m => (m.name, env.events m.name))

/-- `ModuleManager.interpolate_string`: replace each
`(specified template path)` placeholder with the compilation target path,
iterating the template registry in insertion order. -/
def mgr_interpolate (templates : List (String × TemplateRec)) (s : String) : String :=
  templates.foldl (fun acc kv => pyReplace acc ("\x7b" ++ kv.1 ++ "\x7d") kv.2.target) s

/-! ### Context import protocol -/

/-- Apply one module's `ContextSectionImport` sequence to the application
context: each import expands the source file path and overwrites the target
subtree via the external resolver (`insert_into` in `config.py`). -/
def apply_imports (env : Env) (ctx : AppContext) :
    List ContextSectionImport → List Effect × AppContext
  | [] => ([], ctx)
  | c :: rest =>
    let c' := { c with from_config_file := env.expand c.from_config_file }
    let (es, ctx') := apply_imports env (env.insert_into c' ctx) rest
    (Effect.insertedContext c' :: es, ctx')

/-- The module loop of `ModuleManager.import_context_sections`. -/
def import_cs_go (env : Env) (trigger : String) :
    List ModuleRec → AppContext → List Effect × Except PyExn AppContext
  | [], ctx => ([], .ok ctx)
  | m :: ms, ctx =>
    match context_section_imports m (env.events m.name) trigger with
    | .error ex => ([], .error ex)
    | .ok csis =>
      let (es, ctx') := apply_imports env ctx csis
      let (es2, r) := import_cs_go env trigger ms ctx'
      (es ++ es2, r)

/-- `ModuleManager.import_context_sections`: its own assertion names all
three triggers correctly; the per-module call can still raise. -/
def import_context_sections (env : Env) (st : ManagerState) (trigger : String) :
    List Effect × Except PyExn AppContext :=
  if trigger = "on_startup" ∨ trigger = "on_event" ∨ trigger = "on_exit" then
    import_cs_go env trigger st.modules st.context
  else ([], .error .assertionError)

/-! ### Template compilation -/

/-- `ModuleManager.compile_template`: delegate to the external compiler; a
`TemplateNotFound` failure (the compiler fails exactly when the source file
does not exist) is caught here and logged with the source and target. -/
def compile_template (env : Env) (source target : String) : List Effect :=
  if env.compile_ok source then [.compiled source target]
  else [.compileErrorLogged source target]

/-- One iteration of a compile loop: look the specified template path up in
the registry (`KeyError` when absent) and compile it. -/
def compile_one (env : Env) (templates : List (String × TemplateRec))
    (spec : CompileSpec) : List Effect × Except PyExn Unit :=
  match List.lookup spec.template templates with
  | none => ([], .error (.keyError spec.template))
  | some t => (compile_template env t.source t.target, .ok ())

/-- A compile loop over one block's `compile` list. -/
def compile_list (env : Env) (templates : List (String × TemplateRec)) :
    List CompileSpec → List Effect × Except PyExn Unit
  | [] => ([], .ok ())
  | s :: rest =>
    match compile_one env templates s with
    | (e, .error ex) => (e, .error ex)
    | (e, .ok _) =>
      let (es, r) := compile_list env templates rest
      (e ++ es, r)

/-- The module loop of `ModuleManager.compile_templates`. -/
def compile_modules (env : Env) (templates : List (String × TemplateRec)) :
    List ModuleRec → String → List Effect × Except PyExn Unit
  | [], _ => ([], .ok ())
  | m :: ms, trigger =>
    match top_block? m.config trigger with
    | none => ([], .error (.keyError trigger))
    | some blk =>
      match compile_list env templates blk.compile with
      | (e, .error ex) => (e, .error ex)
      | (e, .ok _) =>
        let (es, r) := compile_modules env templates ms trigger
        (e ++ es, r)

/-- `ModuleManager.compile_templates`. -/
def compile_templates (env : Env) (st : ManagerState) (trigger : String) :
    List Effect × Except PyExn Unit :=
  if trigger = "on_startup" ∨ trigger = "on_event" ∨ trigger = "on_exit" then
    compile_modules env st.templates st.modules trigger
  else ([], .error .assertionError)

/-- The compile actions scheduled for one trigger across all modules, in
execution order. -/
def scheduled_compilations (st : ManagerState) (trigger : String) : List CompileSpec :=
  (st.modules.map (fun m => (top_block? m.config trigger).elim [] (·.compile))).flatten

/-- The effects one scheduled compile action produces (empty only in the
unreachable case of a registry miss, which instead raises). -/
def compile_effect (env : Env) (templates : List (String × TemplateRec))
    (s : CompileSpec) : List Effect :=
  match List.lookup s.template templates with
  | none => []
  | some t => compile_template env t.source t.target

/-! ### Command batches and the run-loop state machine -/

/-- Run every module's commands for one phase: each command is first
interpolated by the module (already done by the accessor) and then by the
manager's template-placeholder substitution inside `run_shell`. -/
def run_cmds (env : Env) (st : ManagerState)
    (which : ModuleRec → String → List String) : List Effect :=
  (st.modules.map (fun m =>
    (which m (env.events m.name)).map
      (fun c => Effect.ranCommand m.name (mgr_interpolate st.templates c)))).flatten

/-- `ModuleManager.startup`: run startup commands, mark startup done, start
the directory watcher. -/
def startup (env : Env) (st : ManagerState) : List Effect × ManagerState :=
  (run_cmds env st startup_commands ++ [.startedWatcher],
   { st with startup_done := true })

/-- `ModuleManager.on_event`: run event commands, then refresh the
last-seen event snapshot. -/
def on_event (env : Env) (st : ManagerState) : List Effect × ManagerState :=
  (run_cmds env st on_event_commands,
   { st with last_module_events := module_events env st })

/-- `ModuleManager.exit`: run exit commands, close manager-owned temporary
files (not tracked in this state), stop the watcher.  The manager state
itself is not mutated. -/
def exit_manager (env : Env) (st : ManagerState) : List Effect × ManagerState :=
  (run_cmds env st exit_commands ++ [.stoppedWatcher], st)

/-- The import-then-compile prefix shared by both `finish_tasks` branches;
on success only the application context changes. -/
def import_compile (env : Env) (st : ManagerState) (trigger : String) :
    List Effect × Except PyExn ManagerState :=
  match import_context_sections env st trigger with
  | (e1, .error ex) => (e1, .error ex)
  | (e1, .ok ctx) =>
    let stA := { st with context := ctx }
    match compile_templates env stA trigger with
    | (e2, .error ex) => (e1 ++ e2, .error ex)
    | (e2, .ok _) => (e1 ++ e2, .ok stA)

/-- `ModuleManager.finish_tasks`: on first call snapshot the module events
and run the startup batch; afterwards run the event batch only when the
snapshot differs from the baseline. -/
def finish_tasks (env : Env) (st : ManagerState) :
    List Effect × Except PyExn ManagerState :=
  if st.startup_done = false then
    let st0 := { st with last_module_events := module_events env st }
    match import_compile env st0 "on_startup" with
    | (e, .error ex) => (e, .error ex)
    | (e, .ok stA) =>
      let (e3, stB) := startup env stA
      (e ++ e3, .ok stB)
  else if st.last_module_events = module_events env st then ([], .ok st)
  else
    match import_compile env st "on_event" with
    | (e, .error ex) => (e, .error ex)
    | (e, .ok stA) =>
      let (e3, stB) := on_event env stA
      (e ++ e3, .ok stB)

/-- `ModuleManager.has_unfinished_tasks`. -/
def has_unfinished_tasks (env : Env) (st : ManagerState) : Bool :=
  if st.startup_done = false then true
  else decide (st.last_module_events ≠ module_events env st)

/-! ### The `modified` watcher callback -/

/-- `ModuleManager.modified`.  For the root configuration file:
`user_configuration` is invoked before the `try` block, so a parse failure
propagates out of the callback, while a failure inside the block
(reinstantiating the manager, or anything after it) is swallowed by the bare
`except` and logged.  In the success path, old exit actions run and the new
manager's `finish_tasks` runs, but `self = new_module_manager` only rebinds
the local name, so the caller-visible state is still the old manager's.
For other paths: registry miss is a no-op; otherwise the source evaluates
`self.templates[specified_path]` (result overwritten before use), so a
watched path whose specified string is not a template registry key raises
`KeyError` before any action runs; then the `on_modified` compile actions
and commands run. -/
def modified (env : Env) (st : ManagerState) (path : String) :
    List Effect × Except PyExn ManagerState :=
  if path = st.config_file then
    if st.hot_reload = false then ([], .ok st)
    else
      match env.reload_parse with
      | .error ex => ([], .error ex)
      | .ok _ =>
        match env.reload_construct with
        | .error _ => ([.reloadErrorLogged], .ok st)
        | .ok newSt =>
          let (eExit, stOld) := exit_manager env st
          match finish_tasks env newSt with
          | (eFt, .ok _) => (eExit ++ eFt, .ok stOld)
          | (eFt, .error _) => (eExit ++ eFt ++ [.reloadErrorLogged], .ok stOld)
  else
    match List.lookup path st.on_modified_paths with
    | none => ([], .ok st)
    | some wf =>
      match List.lookup wf.specified_path st.templates with
      | none => ([], .error (.keyError wf.specified_path))
      | some _ =>
        match List.lookup wf.specified_path wf.module.config.on_modified with
        | none => ([], .error (.keyError wf.specified_path))
        | some blk =>
          match compile_list env st.templates blk.compile with
          | (eC, .error ex) => (eC, .error ex)
          | (eC, .ok _) =>
            match modified_commands wf.module (env.events wf.module.name)
                wf.specified_path with
            | .error ex => (eC, .error ex)
            | .ok cs =>
              (eC ++ cs.map (fun c =>
                  Effect.ranCommand wf.module.name (mgr_interpolate st.templates c)),
               .ok st)

/-! ### Shared concrete environments -/

/-- A benign external world: every listener reports `"now"`, every template
source exists, path expansion is the identity, context imports prepend an
entry, and hot reload would parse but fail to construct. -/
def envDefault : Env :=
  { events := fun _ => "now"
    compile_ok := fun _ => true
    expand := fun p => p
    insert_into := fun csi ctx => (csi.from_config_file, "imported") :: ctx
    reload_parse := .ok ()
    reload_construct := .error .assertionError }

/-! ### Claim C7 -/

/-- Claim C7: `valid_class_section` returns false for a key whose first path
component is not `module`, false when `enabled` is set to false, true for
`(module/x: ())` (enabled defaults to true, no requires), and raises a
fatal `RuntimeError` instead of returning when the mapping does not hold
exactly one key. -/
theorem valid_class_section_cases : ∀ run_shell_ok : String → Bool,
    valid_class_section [("not-module/x", {})] run_shell_ok = .ok false
  ∧ valid_class_section [("module/x", { enabled := some false })] run_shell_ok = .ok false
  ∧ valid_class_section [("module/x", {})] run_shell_ok = .ok true
  ∧ valid_class_section [] run_shell_ok
      = .error (.runtimeError
          "Tried to check module section with dict which does not have exactly one item.")
  ∧ valid_class_section [("module/x", {}), ("module/y", {})] run_shell_ok
      = .error (.runtimeError
          "Tried to check module section with dict which does not have exactly one item.") :=
  fun _ => ⟨rfl, rfl, rfl, rfl, rfl⟩

/-! ### Claim C4 -/

/-- A module declaring context imports in `on_startup` and `on_exit`. -/
def mC4 : ModuleRec :=
  { name := "m4"
    config :=
      { on_startup :=
          { EventBlock.empty with
              import_context := [{ from_path := "f", from_section := some "s", to_section := none }] }
        on_event := EventBlock.empty
        on_exit :=
          { EventBlock.empty with
              import_context := [{ from_path := "g", from_section := some "t", to_section := none }] }
        on_modified := [] } }

def stC4 : ManagerState :=
  { config_file := "/conf/astrality.yaml"
    hot_reload := true
    startup_done := false
    last_module_events := []
    modules := [mC4]
    templates := []
    on_modified_paths := []
    context := [] }

/-- Claim C4 (code bug): `Module.context_section_imports` accepts
`on_startup` and `on_event`, but its assertion tuple repeats `'on_startup'`
in place of `'on_exit'`, so the trigger `on_exit` -- which the docstring and
the spec allow -- raises an `AssertionError`, both directly and through
`ModuleManager.import_context_sections`. -/
theorem context_section_imports_rejects_on_exit :
    context_section_imports mC4 "now" "on_startup"
      = .ok [{ into_section := some "s", from_section := some "s", from_config_file := "f" }]
  ∧ context_section_imports mC4 "now" "on_event" = .ok []
  ∧ context_section_imports mC4 "now" "on_exit" = .error .assertionError
  ∧ import_context_sections envDefault stC4 "on_exit" = ([], .error .assertionError) :=
  ⟨rfl, rfl, rfl, rfl⟩

/-! ### Claim C3 -/

/-- A raw module whose `on_event` block and whose `on_modified` entry `p`
both declare `trigger: on_startup`. -/
def rawC3 : RawModuleConfig :=
  { on_startup := some { run := some (.one "s") }
    on_event := some { run := some (.one "e"), trigger := some (.one "on_startup") }
    on_modified := some [("p", { run := some (.one "m"), trigger := some (.one "on_startup") })] }

/-- Claim C3 (code bug): after construction, the same `trigger: on_startup`
declaration is resolved for the top-level `on_event` block (its run list
becomes `["e", "s"]`) but never for the `on_modified` entry, whose run list
stays `["m"]`: the source iterates
`(on_startup, on_event, on_exit, on_modified.values())` without unpacking
the values view, and `'trigger' in dict_values(...)` is always false. -/
theorem on_modified_trigger_never_imported :
    (build_module "module/x" rawC3).map
      (fun m => (m.config.on_event.run, (List.lookup "p" m.config.on_modified).map (·.run)))
    = some (["e", "s"], some ["m"]) := rfl

/-! ### Claim C5 -/

/-- `on_event` triggers `on_startup`, which itself triggers `on_exit`.
Blocks are expanded in the order `on_startup`, `on_event`, `on_exit`, so by
the time `on_event` imports `on_startup`, the latter already contains
`on_exit`'s commands. -/
def cfgC5 : ModuleConfigRec :=
  { on_startup := { EventBlock.empty with run := ["b"], trigger := ["on_exit"] }
    on_event := { EventBlock.empty with run := ["y"], trigger := ["on_startup"] }
    on_exit := { EventBlock.empty with run := ["z"] }
    on_modified := [] }

/-- Claim C5 (counterexample): for block A = `on_event` declaring
`trigger: on_startup` with own run `["y"]` and B = `on_startup` with
declared run `["b"]`, the effective run list of A is `["y", "b", "z"]`, not
A's own commands followed by B's declared commands `["y", "b"]`: B's own
trigger (`on_exit`, run `["z"]`) was already expanded into B, so expansion
is not single-level in general. -/
theorem trigger_expansion_multi_level_counterexample :
    (import_trigger_actions cfgC5).map (·.on_event.run) = some ["y", "b", "z"]
  ∧ (import_trigger_actions cfgC5).map (·.on_event.run) ≠ some (["y"] ++ ["b"]) :=
  ⟨rfl, by decide⟩

theorem lookup_event_block_on_startup (mc : ModuleConfigRec) :
    lookup_event_block mc "on_startup" = some mc.on_startup := by
  unfold lookup_event_block
  rw [if_neg (by decide), if_pos rfl]

theorem lookup_event_block_on_event (mc : ModuleConfigRec) :
    lookup_event_block mc "on_event" = some mc.on_event := by
  unfold lookup_event_block
  rw [if_neg (by decide), if_neg (by decide), if_pos rfl]

theorem lookup_event_block_on_exit (mc : ModuleConfigRec) :
    lookup_event_block mc "on_exit" = some mc.on_exit := by
  unfold lookup_event_block
  rw [if_neg (by decide), if_neg (by decide), if_neg (by decide), if_pos rfl]

/-- Claim C5 (amended): because `on_startup` is the first block expanded,
an `on_startup` block declaring `trigger: on_event` receives exactly its own
declared run commands followed by `on_event`'s originally declared run
commands, in order, even when `on_event` itself declares a further trigger
(here `on_exit`): for the first-processed block the expansion is
single-level.  (For a block that triggers an earlier-processed block, the
counterexample shows the imported list is the already-expanded one.) -/
theorem trigger_expansion_first_block_single_level (cfg : ModuleConfigRec)
    (h1 : cfg.on_startup.trigger = ["on_event"])
    (h2 : cfg.on_event.trigger = ["on_exit"])
    (h3 : cfg.on_exit.trigger = []) :
    (import_trigger_actions cfg).map (·.on_startup.run)
      = some (cfg.on_startup.run ++ cfg.on_event.run) := by
  simp [import_trigger_actions, trigger_step, elem_has_trigger_key, expand_top_block,
    expand_refs, getTop, setTop, import_event_block,
    lookup_event_block_on_startup, lookup_event_block_on_event, lookup_event_block_on_exit,
    h1, h2, h3]

def cfgC5w : ModuleConfigRec :=
  { on_startup := { EventBlock.empty with run := ["y"], trigger := ["on_event"] }
    on_event := { EventBlock.empty with run := ["x"], trigger := ["on_exit"] }
    on_exit := { EventBlock.empty with run := ["z"] }
    on_modified := [] }

theorem trigger_expansion_first_block_single_level_witness :
    cfgC5w.on_startup.trigger = ["on_event"]
  ∧ (import_trigger_actions cfgC5w).map (·.on_startup.run)
      = some (cfgC5w.on_startup.run ++ cfgC5w.on_event.run) :=
  ⟨rfl, trigger_expansion_first_block_single_level cfgC5w rfl rfl rfl⟩

/-! ### Claim C8 -/

/-- `module/test` with `on_startup.run: "echo (event)"` as a single string. -/
def rawC8 : RawModuleConfig :=
  { on_startup := some { run := some (.one "echo \x7bevent\x7d") } }

def staticNow : StaticListener := { value := "now" }

/-- Claim C8: `startup_commands` returns the on-startup run commands with
every `(event)` placeholder replaced by the listener's current value, in
declaration order; an empty (undeclared) run list yields the empty tuple;
and end-to-end, `module/test` with a static listener valued `"now"` and
`on_startup.run: "echo (event)"` yields exactly `("echo now",)`. -/
theorem startup_commands_spec : ∀ (m : ModuleRec) (ev : String),
    startup_commands m ev = m.config.on_startup.run.map (interpolate_string ev)
  ∧ (build_module "module/test" rawC8).map
      (fun m2 => startup_commands m2 staticNow.event) = some ["echo now"] := by
  intro m ev
  refine ⟨?_, rfl⟩
  unfold startup_commands
  rcases h : m.config.on_startup.run with _ | ⟨a, l⟩ <;> simp [h]

/-! ### Claim C1 -/

def mC1 : ModuleRec :=
  { name := "m1"
    config :=
      { on_startup := EventBlock.empty
        on_event := EventBlock.empty
        on_exit := { EventBlock.empty with run := ["cleanup"] }
        on_modified := [] } }

def stC1 : ManagerState :=
  { config_file := "/conf/astrality.yaml"
    hot_reload := true
    startup_done := true
    last_module_events := [("m1", "now")]
    modules := [mC1]
    templates := [("t", { source := "/t.src", target := "/t.tgt" })]
    on_modified_paths := []
    context := [("base", "ctx")] }

def envParseFail : Env :=
  { envDefault with reload_parse := .error (.runtimeError "Could not load config file") }

def envConstructFail : Env :=
  { envDefault with reload_parse := .ok (), reload_construct := .error .assertionError }

/-- Claim C1 (code bug): with hot reload enabled, a replacement
configuration that fails to parse makes the exception escape the `modified`
callback with no error logged, because `user_configuration` is invoked
before the `try` block; only a failure to construct the new manager is
caught, logged, and leaves the caller's manager state completely
unchanged. -/
theorem hot_reload_parse_failure_escapes :
    modified envParseFail stC1 "/conf/astrality.yaml"
      = ([], .error (.runtimeError "Could not load config file"))
  ∧ modified envConstructFail stC1 "/conf/astrality.yaml"
      = ([.reloadErrorLogged], .ok stC1) :=
  ⟨rfl, rfl⟩

/-! ### Claim C2 -/

/-- An `on_modified` block that declares a context import as well as a run
command. -/
def blkC2 : EventBlock :=
  { import_context := [{ from_path := "ctx.yml", from_section := some "s", to_section := none }]
    compile := []
    run := ["cmd"]
    trigger := [] }

def mC2 : ModuleRec :=
  { name := "m2"
    config :=
      { on_startup := EventBlock.empty
        on_event := EventBlock.empty
        on_exit := EventBlock.empty
        on_modified := [("p", blkC2)] } }

def stC2 : ManagerState :=
  { config_file := "/conf/astrality.yaml"
    hot_reload := true
    startup_done := true
    last_module_events := []
    modules := [mC2]
    templates := [("p", { source := "/abs/p", target := "/tmp/p" })]
    on_modified_paths := [("/abs/p", { path := "/abs/p", module := mC2, specified_path := "p" })]
    context := [("base", "ctx")] }

/-- Claim C2 (code bug): the watched-path branch of `modified` runs only the
block's compile actions and run commands; the `import_context` entry the
block declares is never applied -- the trace contains no context-import
effect and the returned state (application context included) is unchanged --
although the method's own docstring says context imports are run. -/
theorem modified_runs_no_context_imports :
    blkC2.import_context ≠ []
  ∧ modified envDefault stC2 "/abs/p"
      = ([Effect.ranCommand "m2" "cmd"], .ok stC2) :=
  ⟨by decide, rfl⟩

/-! ### Claim C10 -/

/-- Claim C10 (amended): for a watched path other than the root
configuration file, when the owning module's specified path string is not a
key of the template registry, `modified` raises `KeyError` on the eager
`self.templates[specified_path]` lookup before any compile action or
command of the block executes. -/
theorem watched_path_without_template_raises (env : Env) (st : ManagerState)
    (path : String) (wf : WatchedFileRec)
    (hcfg : ¬path = st.config_file)
    (hwf : List.lookup path st.on_modified_paths = some wf)
    (htpl : List.lookup wf.specified_path st.templates = none) :
    modified env st path = ([], .error (.keyError wf.specified_path)) := by
  unfold modified
  rw [if_neg hcfg, hwf]
  simp [htpl]

def mC10 : ModuleRec :=
  { name := "w"
    config :=
      { on_startup := EventBlock.empty
        on_event := EventBlock.empty
        on_exit := EventBlock.empty
        on_modified := [("q", { EventBlock.empty with run := ["never"] })] } }

def stC10w : ManagerState :=
  { config_file := "/conf/astrality.yaml"
    hot_reload := false
    startup_done := true
    last_module_events := []
    modules := [mC10]
    templates := []
    on_modified_paths := [("/abs/q", { path := "/abs/q", module := mC10, specified_path := "q" })]
    context := [] }

theorem watched_path_without_template_raises_witness :
    List.lookup "/abs/q" stC10w.on_modified_paths
      = some { path := "/abs/q", module := mC10, specified_path := "q" }
  ∧ modified envDefault stC10w "/abs/q" = ([], .error (.keyError "q")) :=
  ⟨rfl,
   watched_path_without_template_raises envDefault stC10w "/abs/q"
     { path := "/abs/q", module := mC10, specified_path := "q" } (by decide) rfl rfl⟩

def mC10c : ModuleRec :=
  { name := "c"
    config :=
      { on_startup := EventBlock.empty
        on_event := EventBlock.empty
        on_exit := EventBlock.empty
        on_modified := [("astrality.yaml", { EventBlock.empty with run := ["reloaded"] })] } }

/-- A manager whose watched-path registry contains the root configuration
file itself (the user declared `on_modified: astrality.yaml`), with hot
reload disabled and an empty template registry. -/
def stC10c : ManagerState :=
  { config_file := "/conf/astrality.yaml"
    hot_reload := false
    startup_done := true
    last_module_events := []
    modules := [mC10c]
    templates := []
    on_modified_paths :=
      [("/conf/astrality.yaml",
        { path := "/conf/astrality.yaml", module := mC10c, specified_path := "astrality.yaml" })]
    context := [] }

/-- Claim C10 (counterexample): the root configuration file can itself be in
the watched-path registry with a specified path that is not a template
registry key, yet `modified` on that path takes the configuration-file
branch first and returns without raising any lookup error. -/
theorem watched_config_path_no_keyerror :
    List.lookup "/conf/astrality.yaml" stC10c.on_modified_paths
      = some { path := "/conf/astrality.yaml", module := mC10c,
               specified_path := "astrality.yaml" }
  ∧ List.lookup "astrality.yaml" stC10c.templates = none
  ∧ modified envDefault stC10c "/conf/astrality.yaml" = ([], .ok stC10c) :=
  ⟨rfl, rfl, rfl⟩

/-! ### Claim C6 -/

/-- On success, the import-then-compile prefix of `finish_tasks` changes
nothing but the application context. -/
theorem import_compile_ok_fields (env : Env) (st : ManagerState) (trigger : String)
    (e : List Effect) (stA : ManagerState)
    (h : import_compile env st trigger = (e, .ok stA)) :
    stA = { st with context := stA.context } := by
  unfold import_compile at h
  rcases h1 : import_context_sections env st trigger with ⟨e1, r1⟩
  rw [h1] at h
  cases r1 with
  | error ex => simp at h
  | ok ctx =>
    rcases h2 : compile_templates env { st with context := ctx } trigger with ⟨e2, r2⟩
    simp only [h2] at h
    cases r2 with
    | error ex => simp at h
    | ok u =>
      simp only [Prod.mk.injEq, Except.ok.injEq] at h
      rw [← h.2]

theorem module_events_congr (env : Env) (st st' : ManagerState)
    (h : st'.modules = st.modules) : module_events env st' = module_events env st := by
  unfold module_events
  rw [h]

/-- Claim C6: starting from `NOT_STARTED`, a successful `finish_tasks` call
leaves the manager `RUNNING` with the event baseline equal to the current
snapshot, so a second call under unchanged event values performs neither the
startup batch nor the event batch: it returns no effects and the state is a
fixed point. -/
theorem finish_tasks_second_call_noop (env : Env) (st st1 : ManagerState)
    (e1 : List Effect)
    (hsd : st.startup_done = false)
    (h1 : finish_tasks env st = (e1, .ok st1)) :
    st1.startup_done = true ∧ finish_tasks env st1 = ([], .ok st1) := by
  unfold finish_tasks at h1
  rw [if_pos hsd] at h1
  dsimp only [] at h1
  rcases hic : import_compile env
      { st with last_module_events := module_events env st } "on_startup" with ⟨e, r⟩
  rw [hic] at h1
  cases r with
  | error ex => simp at h1
  | ok stA =>
    simp only [startup, Prod.mk.injEq, Except.ok.injEq] at h1
    obtain ⟨-, hs⟩ := h1
    have hfields := import_compile_ok_fields env _ "on_startup" e stA hic
    have hmods : stA.modules = st.modules := by rw [hfields]
    have hlast : stA.last_module_events = module_events env st := by rw [hfields]
    subst hs
    refine ⟨rfl, ?_⟩
    unfold finish_tasks
    rw [if_neg (by simp)]
    have hcond : ({ stA with startup_done := true } : ManagerState).last_module_events
        = module_events env ({ stA with startup_done := true } : ManagerState) := by
      rw [module_events_congr env st { stA with startup_done := true } hmods]
      exact hlast
    rw [if_pos hcond]

def mC6 : ModuleRec :=
  { name := "m6"
    config :=
      { on_startup := { EventBlock.empty with run := ["echo hi"] }
        on_event := { EventBlock.empty with run := ["evt"] }
        on_exit := EventBlock.empty
        on_modified := [] } }

def stC6 : ManagerState :=
  { config_file := "/conf/astrality.yaml"
    hot_reload := false
    startup_done := false
    last_module_events := []
    modules := [mC6]
    templates := []
    on_modified_paths := []
    context := [] }

def stC6done : ManagerState :=
  { stC6 with startup_done := true, last_module_events := [("m6", "now")] }

theorem finish_tasks_second_call_noop_witness :
    stC6.startup_done = false
  ∧ finish_tasks envDefault stC6
      = ([Effect.ranCommand "m6" "echo hi", Effect.startedWatcher], .ok stC6done)
  ∧ stC6done.startup_done = true
  ∧ finish_tasks envDefault stC6done = ([], .ok stC6done) := by
  refine ⟨rfl, rfl, ?_⟩
  exact finish_tasks_second_call_noop envDefault stC6 stC6done
    [Effect.ranCommand "m6" "echo hi", Effect.startedWatcher] rfl rfl

/-! ### Claim C9 -/

theorem compile_list_all_ok (env : Env) (templates : List (String × TemplateRec))
    (specs : List CompileSpec)
    (h : ∀ s ∈ specs, (List.lookup s.template templates).isSome) :
    compile_list env templates specs
      = ((specs.map (compile_effect env templates)).flatten, .ok ()) := by
  induction specs with
  | nil => rfl
  | cons s rest ih =>
    have hs : (List.lookup s.template templates).isSome := h s (by simp)
    rcases ht : List.lookup s.template templates with _ | t
    · rw [ht] at hs
      simp at hs
    · simp only [compile_list, compile_one, ht]
      rw [ih (fun x hx => h x (by simp [hx]))]
      simp [compile_effect, ht]

theorem compile_modules_all_ok (env : Env) (templates : List (String × TemplateRec))
    (trigger : String) (mods : List ModuleRec)
    (htr : trigger = "on_startup" ∨ trigger = "on_event" ∨ trigger = "on_exit")
    (h : ∀ m ∈ mods, ∀ s ∈ (top_block? m.config trigger).elim [] (·.compile),
        (List.lookup s.template templates).isSome) :
    compile_modules env templates mods trigger
      = (((mods.map (fun m => (top_block? m.config trigger).elim [] (·.compile))).flatten.map
            (compile_effect env templates)).flatten, .ok ()) := by
  induction mods with
  | nil => rfl
  | cons m ms ih =>
    obtain ⟨blk, hblk⟩ : ∃ blk, top_block? m.config trigger = some blk := by
      rcases htr with h' | h' | h' <;> subst h' <;> exact ⟨_, rfl⟩
    have hm : ∀ s ∈ blk.compile, (List.lookup s.template templates).isSome := by
      have := h m (by simp)
      rw [hblk] at this
      simpa using this
    simp only [compile_modules, hblk]
    rw [compile_list_all_ok env templates blk.compile hm]
    rw [ih (fun x hx s hs => h x (by simp [hx]) s hs)]
    simp [hblk]

/-- Claim C9: for any batch trigger whose scheduled compile actions all have
registry entries, `compile_templates` runs to completion with no exception,
and its effect trace is the independent concatenation of each scheduled
compilation's own effects -- so a missing source template affects only its
own entry; such a failure is caught inside `compile_template` and logged as
an error naming the source and the target. -/
theorem compile_batch_isolated_failures (env : Env) (st : ManagerState)
    (trigger : String)
    (htr : trigger = "on_startup" ∨ trigger = "on_event" ∨ trigger = "on_exit")
    (hlk : ∀ s ∈ scheduled_compilations st trigger,
        (List.lookup s.template st.templates).isSome) :
    compile_templates env st trigger
      = (((scheduled_compilations st trigger).map
            (compile_effect env st.templates)).flatten, .ok ())
  ∧ ∀ source target, env.compile_ok source = false →
      compile_template env source target = [Effect.compileErrorLogged source target] := by
  constructor
  · unfold compile_templates scheduled_compilations
    rw [if_pos htr]
    refine compile_modules_all_ok env st.templates trigger st.modules htr ?_
    intro m hm s hs
    refine hlk s ?_
    unfold scheduled_compilations
    simp only [List.mem_flatten, List.mem_map]
    exact ⟨(top_block? m.config trigger).elim [] (·.compile), ⟨m, hm, rfl⟩, hs⟩
  · intro source target hok
    unfold compile_template
    rw [hok]
    simp

def mC9 : ModuleRec :=
  { name := "m9"
    config :=
      { on_startup :=
          { EventBlock.empty with
              compile := [{ template := "a", target := none },
                          { template := "b", target := none }] }
        on_event := EventBlock.empty
        on_exit := EventBlock.empty
        on_modified := [] } }

def stC9 : ManagerState :=
  { config_file := "/conf/astrality.yaml"
    hot_reload := false
    startup_done := true
    last_module_events := []
    modules := [mC9]
    templates := [("a", { source := "/a.src", target := "/a.tgt" }),
                  ("b", { source := "/b.src", target := "/b.tgt" })]
    on_modified_paths := []
    context := [] }

/-- The source of template `b` does not exist on disk. -/
def envC9 : Env := { envDefault with compile_ok := fun s => s = "/a.src" }

theorem compile_batch_isolated_failures_witness :
    (∀ s ∈ scheduled_compilations stC9 "on_startup",
        (List.lookup s.template stC9.templates).isSome)
  ∧ compile_templates envC9 stC9 "on_startup"
      = ([Effect.compiled "/a.src" "/a.tgt", Effect.compileErrorLogged "/b.src" "/b.tgt"],
         .ok ()) := by
  refine ⟨by decide, ?_⟩
  exact ((compile_batch_isolated_failures envC9 stC9 "on_startup" (Or.inl rfl)
    (by decide)).1).trans rfl

end Astrality
